import Mathlib

/-!
Shallow embedding of `src/third_party/nvidia/backend/launcher.c`.

The C file is a Python extension module dispatching CUDA kernel launches.
Machine integers are modelled as `Int` (the C `int` arguments) and `Nat`
(the `uint64_t` argument words); signed-overflow cases are undefined
behaviour in C, so products are taken mathematically.  Pointers into the
marshalled word buffer are modelled as slot indices.  Every interaction
with the outside world (hook calls, dynamic loader, driver launch entry
points) is recorded as an event in a trace, and the driver and loader
behaviour is a parameter (`DriverEnv`).  Calling a NULL function pointer
is modelled as the distinguished outcome `crashed`.
-/

namespace TritonLauncher

/-- Result code of a CUDA driver call; `success` models `CUDA_SUCCESS`,
`error c` any non-success `CUresult` code. -/
inductive CUresult where
  | success : CUresult
  | error (code : Nat) : CUresult
deriving DecidableEq, Repr

/-- Python exception state, as set through the CPython API by the launcher:
`runtimeError` from `PyErr_SetString(PyExc_RuntimeError, ...)`,
`overflowError` / `typeError` from a failing `PyLong_AsUnsignedLongLong`,
`hookError` for an exception raised inside a hook callable. -/
inductive PyErr where
  | runtimeError (msg : String) : PyErr
  | overflowError : PyErr
  | typeError : PyErr
  | hookError : PyErr
deriving DecidableEq, Repr

/-- Model of `cuGetErrorString`: the driver renders a non-success code as text. -/
def cuGetErrorString (code : Nat) : String :=
  "CUDA error " ++ toString code

/-- Lines 6-21, `gpuAssert`: on a non-success result code, set a Python
`RuntimeError` whose text is the fixed prefix followed by the driver error
string; on success the pending exception state is untouched. -/
def gpuAssert (code : CUresult) (pyerr : Option PyErr) : Option PyErr :=
  match code with
  | .success => pyerr
  | .error c => some (.runtimeError ("Triton Error [CUDA]: " ++ cuGetErrorString c))

/-- The cluster scheduling policies of the CUDA driver enum; the launcher
only ever selects `spread` (line 57). -/
inductive CUclusterSchedulingPolicy where
  | defaultPolicy : CUclusterSchedulingPolicy
  | spread : CUclusterSchedulingPolicy
  | loadBalancing : CUclusterSchedulingPolicy
deriving DecidableEq, Repr

/-- A `CUlaunchAttribute` as filled in by lines 51-57: either the cluster
dimension attribute or the cluster-scheduling-policy-preference attribute. -/
inductive CUlaunchAttribute where
  | clusterDimension (x y z : Int) : CUlaunchAttribute
  | clusterSchedulingPolicyPreference (policy : CUclusterSchedulingPolicy) : CUlaunchAttribute
deriving DecidableEq, Repr

/-- The `CUlaunchConfig` structure built on the cluster path (lines 58-68).
`attrs` carries the attribute array together with its length (`numAttrs`). -/
structure CUlaunchConfig where
  gridDimX : Int
  gridDimY : Int
  gridDimZ : Int
  blockDimX : Int
  blockDimY : Int
  blockDimZ : Int
  sharedMemBytes : Int
  hStream : Nat
  attrs : List CUlaunchAttribute
deriving DecidableEq, Repr

/-- Observable events of one `launch` call: hook invocations, dynamic
loader activity, and driver launch calls.  For the driver calls the
`kernelParams` list records the 64-bit words the passed argument pointers
dereference to, and `extra` the final extra-options argument (`none`
models the literal `0` / NULL). -/
inductive Event where
  | enterHookCall : Event
  | exitHookCall : Event
  | dlopenLibcuda : Event
  | dlsymLaunchKernelEx : Event
  | cuLaunchKernel (f : Nat) (gridDimX gridDimY gridDimZ blockDimX blockDimY blockDimZ : Int)
      (sharedMemBytes : Int) (hStream : Nat) (kernelParams : List Nat) (extra : Option Nat) : Event
  | cuLaunchKernelEx (handle : Nat) (config : CUlaunchConfig) (f : Nat)
      (kernelParams : List Nat) (extra : Option Nat) : Event
deriving DecidableEq, Repr

/-- Behaviour of the surrounding system: whether `dlopen("libcuda.so")`
succeeds, what `dlsym(handle, "cuLaunchKernelEx")` yields (`none` when the
symbol is absent), and the result codes the two driver launch entry points
return when invoked. -/
structure DriverEnv where
  dlopenOk : Bool
  exSymbol : Option Nat
  launchKernelResult : CUresult
  launchKernelExResult : CUresult
deriving DecidableEq, Repr

/-- Lines 27-44, `getLaunchKernelExHandle`: open `libcuda.so`, look up
`cuLaunchKernelEx`.  Returns the resolved handle (or `none`, the NULL of
the C code), the Python exception it set, and the loader events performed. -/
def getLaunchKernelExHandle (env : DriverEnv) : Option Nat × Option PyErr × List Event :=
  if env.dlopenOk = false then
    (none, some (.runtimeError "Failed to open libcuda.so"), [.dlopenLibcuda])
  else
    match env.exSymbol with
    | none => (none, some (.runtimeError "Failed to retrieve cuLaunchKernelEx from libcuda.so"),
               [.dlopenLibcuda, .dlsymLaunchKernelEx])
    | some h => (some h, none, [.dlopenLibcuda, .dlsymLaunchKernelEx])

/-- Lines 69-72: the static cache `cuLaunchKernelExHandle` is consulted;
only when it is NULL (`none`) is the resolver invoked.  Returns the handle
now in hand, any Python exception set, and the loader events performed. -/
def resolveExHandle (env : DriverEnv) (cache : Option Nat) : Option Nat × Option PyErr × List Event :=
  match cache with
  | some h => (some h, none, [])
  | none => getLaunchKernelExHandle env

/-- Mutable state threaded through `_launch`: the static handle cache and
the pending Python exception (`PyErr_Occurred` state). -/
structure LState where
  cache : Option Nat
  pyerr : Option PyErr
deriving DecidableEq, Repr

/-- Whether the foreign call returned normally or crashed the process
(the C code calls a NULL function pointer in one path). -/
inductive Outcome where
  | returned : Outcome
  | crashed : Outcome
deriving DecidableEq, Repr

/-- Result of one `_launch` call: outcome, final state, event trace. -/
structure LResult where
  outcome : Outcome
  state : LState
  events : List Event
deriving DecidableEq, Repr

/-- Lines 46-76, `_launch`.  Skip when the grid product is not positive;
otherwise dispatch on `num_ctas == 1` between `cuLaunchKernel` and the
dynamically resolved `cuLaunchKernelEx` with the two-attribute cluster
config.  When resolution yields NULL the C code still calls the handle:
that is the `crashed` outcome. -/
def _launch (env : DriverEnv) (st : LState)
    (gridX gridY gridZ num_warps num_ctas clusterDimX clusterDimY clusterDimZ shared_memory : Int)
    (stream function : Nat) (params : List Nat) : LResult :=
  if gridX * gridY * gridZ > 0 then
    if num_ctas = 1 then
      { outcome := .returned
        state := { st with pyerr := gpuAssert env.launchKernelResult st.pyerr }
        events := [.cuLaunchKernel function gridX gridY gridZ (32 * num_warps) 1 1
                    shared_memory stream params none] }
    else
      let config : CUlaunchConfig :=
        { gridDimX := gridX * clusterDimX
          gridDimY := gridY * clusterDimY
          gridDimZ := gridZ * clusterDimZ
          blockDimX := 32 * num_warps
          blockDimY := 1
          blockDimZ := 1
          sharedMemBytes := shared_memory
          hStream := stream
          attrs := [.clusterDimension clusterDimX clusterDimY clusterDimZ,
                    .clusterSchedulingPolicyPreference .spread] }
      let r := resolveExHandle env st.cache
      let pyerr1 : Option PyErr :=
        match r.2.1 with
        | some e => some e
        | none => st.pyerr
      match r.1 with
      | none =>
        { outcome := .crashed
          state := { cache := none, pyerr := pyerr1 }
          events := r.2.2 }
      | some h =>
        { outcome := .returned
          state := { cache := some h, pyerr := gpuAssert env.launchKernelExResult pyerr1 }
          events := r.2.2 ++ [.cuLaunchKernelEx h config function params none] }
  else
    { outcome := .returned, state := st, events := [] }

/-- A host-side Python value handed to the launcher in the argument tuple:
a Python integer, or any non-integer object. -/
inductive PyVal where
  | int (n : Int) : PyVal
  | nonInt : PyVal
deriving DecidableEq, Repr

/-- Model of `PyLong_AsUnsignedLongLong` (line 108): a Python integer in
`[0, 2^64)` converts exactly; anything else sets an exception
(`OverflowError` for an out-of-range integer, `TypeError` for a
non-integer) and returns `(unsigned long long)(-1)`, that is `2^64 - 1`. -/
def pyLongAsUnsignedLongLong : PyVal → Nat × Option PyErr
  | .int n => if 0 ≤ n ∧ n < 2 ^ 64 then (n.toNat, none) else (2 ^ 64 - 1, some .overflowError)
  | .nonInt => (2 ^ 64 - 1, some .typeError)

/-- Whether a host value is representable as an unsigned 64-bit integer. -/
def isRepresentableU64 : PyVal → Bool
  | .int n => decide (0 ≤ n) && decide (n < 2 ^ 64)
  | .nonInt => false

/-- The 64-bit widened value of a representable host integer. -/
def u64Value : PyVal → Nat
  | .int n => n.toNat
  | .nonInt => 0

/-- Lines 103-110, the `arg_vals` word buffer: slot `i` holds the converted
value of tuple element `i`. -/
def marshalVals (values : List PyVal) : List Nat :=
  values.map fun v => (pyLongAsUnsignedLongLong v).1

/-- Lines 103-110, the `arg_ptrs` pointer view: entry `i` is
`&arg_vals[i]`, modelled as the slot index `i` into the word buffer. -/
def marshalPtrs (values : List PyVal) : List Nat :=
  List.range values.length

/-- The Python exception state after the marshalling loop: each failing
conversion overwrites the pending exception; the loop never aborts. -/
def marshalErr (values : List PyVal) (pyerr : Option PyErr) : Option PyErr :=
  values.foldl (fun e v =>
    match (pyLongAsUnsignedLongLong v).2 with
    | some err => some err
    | none => e) pyerr

/-- Dereference a marshalled argument pointer: read the word-buffer slot
the pointer designates. -/
def derefPtr (wordBuffer : List Nat) (p : Nat) : Option Nat :=
  wordBuffer[p]?

/-- A hook argument of the `launch` entry point: the `Py_None` sentinel, a
callable that succeeds, or a callable that raises. -/
inductive Hook where
  | pyNone : Hook
  | succeeds : Hook
  | raises : Hook
deriving DecidableEq, Repr

/-- The tuple the embedding layer passes to `launch` (lines 79-95), after
a successful `PyArg_ParseTuple`. -/
structure PyLaunchArgs where
  gridX : Int
  gridY : Int
  gridZ : Int
  num_warps : Int
  num_ctas : Int
  clusterDimX : Int
  clusterDimY : Int
  clusterDimZ : Int
  shared_memory : Int
  stream : Nat
  function : Nat
  launch_enter_hook : Hook
  launch_exit_hook : Hook
  args_obj : List PyVal
deriving DecidableEq, Repr

/-- What `launch` hands back to the interpreter: `noneObj` is a returned
`Py_None` (success), `nullErr e` is a NULL return with exception `e` set,
`crashed` means the process died inside the foreign call. -/
inductive PyRet where
  | noneObj : PyRet
  | nullErr (e : PyErr) : PyRet
  | crashed : PyRet
deriving DecidableEq, Repr

/-- Result of one call of the module-level `launch`: the value returned to
Python, the static handle cache afterwards, and the full event trace. -/
structure PyLaunchResult where
  ret : PyRet
  cache : Option Nat
  events : List Event
deriving DecidableEq, Repr

/-- Lines 78-130, `launch`: invoke the enter hook unless it is `Py_None`
(a hook failure returns NULL at once), marshal the argument tuple without
checking conversion errors, run `_launch`, then return NULL if any Python
exception is pending, otherwise invoke the exit hook unless it is
`Py_None`, and finally return `Py_None`. -/
def launch (env : DriverEnv) (cache : Option Nat) (a : PyLaunchArgs) : PyLaunchResult :=
  if a.launch_enter_hook = .raises then
    { ret := .nullErr .hookError, cache := cache, events := [.enterHookCall] }
  else
    let preEvents : List Event := if a.launch_enter_hook = .pyNone then [] else [.enterHookCall]
    let arg_vals := marshalVals a.args_obj
    let pyerr0 := marshalErr a.args_obj none
    let r := _launch env { cache := cache, pyerr := pyerr0 }
      a.gridX a.gridY a.gridZ a.num_warps a.num_ctas
      a.clusterDimX a.clusterDimY a.clusterDimZ a.shared_memory
      a.stream a.function arg_vals
    match r.outcome with
    | .crashed => { ret := .crashed, cache := r.state.cache, events := preEvents ++ r.events }
    | .returned =>
      match r.state.pyerr with
      | some e => { ret := .nullErr e, cache := r.state.cache, events := preEvents ++ r.events }
      | none =>
        if a.launch_exit_hook = .raises then
          { ret := .nullErr .hookError, cache := r.state.cache
            events := preEvents ++ r.events ++ [.exitHookCall] }
        else
          let postEvents : List Event := if a.launch_exit_hook = .pyNone then [] else [.exitHookCall]
          { ret := .noneObj, cache := r.state.cache, events := preEvents ++ r.events ++ postEvents }

/-- Count the `cuLaunchKernel` (simple path) calls in a trace. -/
def countSimple (evs : List Event) : Nat :=
  (evs.filter fun e => match e with | .cuLaunchKernel .. => true | _ => false).length

/-- Count the `cuLaunchKernelEx` (cluster path) calls in a trace. -/
def countExtended (evs : List Event) : Nat :=
  (evs.filter fun e => match e with | .cuLaunchKernelEx .. => true | _ => false).length

/-- Count the dynamic-loader operations (`dlopen` / `dlsym`) in a trace. -/
def countLoader (evs : List Event) : Nat :=
  (evs.filter fun e =>
    match e with | .dlopenLibcuda => true | .dlsymLaunchKernelEx => true | _ => false).length

/-- A driver environment where everything works: the library opens, the
extended symbol resolves to handle 5, both launch calls succeed. -/
def envOK : DriverEnv :=
  { dlopenOk := true, exSymbol := some 5
    launchKernelResult := .success, launchKernelExResult := .success }

/-- A driver environment whose library opens but lacks `cuLaunchKernelEx`. -/
def envNoSym : DriverEnv :=
  { dlopenOk := true, exSymbol := none
    launchKernelResult := .success, launchKernelExResult := .success }

/-- The fresh process state: NULL handle cache, no pending exception. -/
def st0 : LState := { cache := none, pyerr := none }

/-- The loader trace produced by a resolution contains no driver launch
calls, whichever way the resolution goes. -/
theorem resolveExHandle_trace_counts (env : DriverEnv) (cache : Option Nat) :
    countSimple (resolveExHandle env cache).2.2 = 0 ∧
    countExtended (resolveExHandle env cache).2.2 = 0 := by
  rcases env with ⟨dlo, sym, r1, r2⟩
  cases cache <;> cases dlo <;> cases sym <;>
    simp [resolveExHandle, getLaunchKernelExHandle, countSimple, countExtended]

/-- C2: for every geometry whose grid product `gridX*gridY*gridZ` equals 0,
`_launch` is a no-op success: it returns with the state unchanged (no
exception set) and an empty event trace, so no driver call is made on
either path. -/
theorem degenerate_grid_noop (env : DriverEnv) (st : LState)
    (gridX gridY gridZ num_warps num_ctas clusterDimX clusterDimY clusterDimZ shared_memory : Int)
    (stream function : Nat) (params : List Nat)
    (hgrid : gridX * gridY * gridZ = 0) :
    _launch env st gridX gridY gridZ num_warps num_ctas clusterDimX clusterDimY clusterDimZ
      shared_memory stream function params
      = { outcome := .returned, state := st, events := [] } := by
  simp [_launch, hgrid]

/-- Witness for C2 at geometry `(0,1,1)`. -/
theorem degenerate_grid_noop_witness :
    (0 : Int) * 1 * 1 = 0 ∧
    _launch envOK st0 0 1 1 4 1 1 1 1 0 7 11 []
      = { outcome := .returned, state := st0, events := [] } :=
  ⟨by decide, degenerate_grid_noop envOK st0 0 1 1 4 1 1 1 1 0 7 11 [] (by decide)⟩

/-- C10: for every geometry whose grid product is negative (possible only
with a negative grid dimension), `_launch` silently returns success with no
driver call and no state change, exactly as in the zero-product case: the
line 47 test `gridX*gridY*gridZ > 0` accepts any non-positive product. -/
theorem negative_grid_product_noop (env : DriverEnv) (st : LState)
    (gridX gridY gridZ num_warps num_ctas clusterDimX clusterDimY clusterDimZ shared_memory : Int)
    (stream function : Nat) (params : List Nat)
    (hgrid : gridX * gridY * gridZ < 0) :
    _launch env st gridX gridY gridZ num_warps num_ctas clusterDimX clusterDimY clusterDimZ
      shared_memory stream function params
      = { outcome := .returned, state := st, events := [] } := by
  have h : ¬ gridX * gridY * gridZ > 0 := by omega
  simp [_launch, h]

/-- Witness for C10 at geometry `(-1,1,1)`. -/
theorem negative_grid_product_noop_witness :
    (-1 : Int) * 1 * 1 < 0 ∧
    _launch envOK st0 (-1) 1 1 4 1 1 1 1 0 7 11 []
      = { outcome := .returned, state := st0, events := [] } :=
  ⟨by decide, negative_grid_product_noop envOK st0 (-1) 1 1 4 1 1 1 1 0 7 11 [] (by decide)⟩

/-- C4: on the simple path (`num_ctas = 1`, positive grid product) the
dispatcher issues exactly one direct `cuLaunchKernel` call with grid
extents `(gridX, gridY, gridZ)`, block extents `(32*num_warps, 1, 1)`, the
given shared-memory size, stream, kernel handle and argument-pointer
array, and a NULL extra-options argument. -/
theorem simple_path_launch (env : DriverEnv) (st : LState)
    (gridX gridY gridZ num_warps num_ctas clusterDimX clusterDimY clusterDimZ shared_memory : Int)
    (stream function : Nat) (params : List Nat)
    (hgrid : gridX * gridY * gridZ > 0) (hctas : num_ctas = 1) :
    _launch env st gridX gridY gridZ num_warps num_ctas clusterDimX clusterDimY clusterDimZ
      shared_memory stream function params
      = { outcome := .returned
          state := { st with pyerr := gpuAssert env.launchKernelResult st.pyerr }
          events := [.cuLaunchKernel function gridX gridY gridZ (32 * num_warps) 1 1
                      shared_memory stream params none] } := by
  simp [_launch, hgrid, hctas]

/-- Witness for C4: scenario A of the spec, geometry `(1,1,1)`,
`num_warps = 4`, `num_ctas = 1`, empty argument array, giving block
extents `(128,1,1)`. -/
theorem simple_path_launch_witness :
    ((1 : Int) * 1 * 1 > 0 ∧ (1 : Int) = 1) ∧
    _launch envOK st0 1 1 1 4 1 1 1 1 0 7 11 []
      = { outcome := .returned
          state := { st0 with pyerr := gpuAssert envOK.launchKernelResult st0.pyerr }
          events := [.cuLaunchKernel 11 1 1 1 128 1 1 0 7 [] none] } :=
  ⟨by decide, by
    have h := simple_path_launch envOK st0 1 1 1 4 1 1 1 1 0 7 11 [] (by decide) rfl
    simpa using h⟩

/-- C3: on the cluster path (`num_ctas ≠ 1`, positive grid product), when
the resolver yields a handle, the launch descriptor passed to the extended
launch has grid extents `(gridX*clusterDimX, gridY*clusterDimY,
gridZ*clusterDimZ)`, block extents `(32*num_warps, 1, 1)`, the given
shared-memory size and stream, and exactly two attributes: the cluster
dimensions `(clusterDimX, clusterDimY, clusterDimZ)` and the scheduling
policy preference fixed to `spread`. -/
theorem cluster_path_descriptor (env : DriverEnv) (st : LState)
    (gridX gridY gridZ num_warps num_ctas clusterDimX clusterDimY clusterDimZ shared_memory : Int)
    (stream function : Nat) (params : List Nat) (h : Nat)
    (hgrid : gridX * gridY * gridZ > 0) (hctas : num_ctas ≠ 1)
    (hres : (resolveExHandle env st.cache).1 = some h) :
    (_launch env st gridX gridY gridZ num_warps num_ctas clusterDimX clusterDimY clusterDimZ
      shared_memory stream function params).events
      = (resolveExHandle env st.cache).2.2 ++
        [.cuLaunchKernelEx h
          { gridDimX := gridX * clusterDimX
            gridDimY := gridY * clusterDimY
            gridDimZ := gridZ * clusterDimZ
            blockDimX := 32 * num_warps
            blockDimY := 1
            blockDimZ := 1
            sharedMemBytes := shared_memory
            hStream := stream
            attrs := [.clusterDimension clusterDimX clusterDimY clusterDimZ,
                      .clusterSchedulingPolicyPreference .spread] }
          function params none] := by
  simp only [_launch, if_pos hgrid, if_neg hctas, hres]

/-- Witness for C3: scenario B of the spec, geometry `(2,2,1)`,
`num_warps = 8`, `num_ctas = 4`, cluster dimensions `(2,2,1)`, shared
memory 1024, giving expanded grid `(4,4,1)` and block `(256,1,1)`. -/
theorem cluster_path_descriptor_witness :
    ((2 : Int) * 2 * 1 > 0 ∧ (4 : Int) ≠ 1 ∧
      (resolveExHandle envOK st0.cache).1 = some 5) ∧
    (_launch envOK st0 2 2 1 8 4 2 2 1 1024 7 11 []).events
      = (resolveExHandle envOK st0.cache).2.2 ++
        [.cuLaunchKernelEx 5
          { gridDimX := 4, gridDimY := 4, gridDimZ := 1
            blockDimX := 256, blockDimY := 1, blockDimZ := 1
            sharedMemBytes := 1024, hStream := 7
            attrs := [.clusterDimension 2 2 1,
                      .clusterSchedulingPolicyPreference .spread] }
          11 [] none] :=
  ⟨⟨by decide, by decide, by decide⟩, by
    have h := cluster_path_descriptor envOK st0 2 2 1 8 4 2 2 1 1024 7 11 [] 5
      (by decide) (by decide) (by decide)
    simpa using h⟩

/-- C1: path selection is exact for every geometry with positive grid
product.  When `num_ctas = 1` the trace holds exactly one simple launch
and no extended launch, and the result is independent of the cluster
dimensions (they are ignored, not validated); when `num_ctas ≠ 1` the
trace holds no simple launch, and whenever resolution yields a handle it
holds exactly one extended launch. -/
theorem path_selection_exact (env : DriverEnv) (st : LState)
    (gridX gridY gridZ num_warps num_ctas clusterDimX clusterDimY clusterDimZ shared_memory : Int)
    (stream function : Nat) (params : List Nat)
    (hgrid : gridX * gridY * gridZ > 0) :
    (num_ctas = 1 →
      countSimple (_launch env st gridX gridY gridZ num_warps num_ctas clusterDimX clusterDimY
        clusterDimZ shared_memory stream function params).events = 1 ∧
      countExtended (_launch env st gridX gridY gridZ num_warps num_ctas clusterDimX clusterDimY
        clusterDimZ shared_memory stream function params).events = 0 ∧
      ∀ cx cy cz : Int,
        _launch env st gridX gridY gridZ num_warps num_ctas cx cy cz
          shared_memory stream function params
        = _launch env st gridX gridY gridZ num_warps num_ctas clusterDimX clusterDimY clusterDimZ
            shared_memory stream function params) ∧
    (num_ctas ≠ 1 →
      countSimple (_launch env st gridX gridY gridZ num_warps num_ctas clusterDimX clusterDimY
        clusterDimZ shared_memory stream function params).events = 0 ∧
      ((resolveExHandle env st.cache).1.isSome = true →
        countExtended (_launch env st gridX gridY gridZ num_warps num_ctas clusterDimX clusterDimY
          clusterDimZ shared_memory stream function params).events = 1)) := by
  have haux := resolveExHandle_trace_counts env st.cache
  constructor
  · intro h1
    refine ⟨?_, ?_, ?_⟩
    · simp [_launch, hgrid, h1, countSimple]
    · simp [_launch, hgrid, h1, countExtended]
    · intro cx cy cz
      simp [_launch, hgrid, h1]
  · intro h1
    rcases hr : (resolveExHandle env st.cache) with ⟨oh, err, evs⟩
    rw [hr] at haux
    cases oh with
    | none =>
      refine ⟨?_, ?_⟩
      · simp only [_launch, if_pos hgrid, if_neg h1, hr]
        exact haux.1
      · intro hsome
        simp at hsome
    | some hd =>
      refine ⟨?_, ?_⟩
      · simp only [_launch, if_pos hgrid, if_neg h1, hr, countSimple, List.filter_append]
        simp only [countSimple] at haux
        simp [haux.1]
      · intro _
        simp only [_launch, if_pos hgrid, if_neg h1, hr, countExtended, List.filter_append]
        simp only [countExtended] at haux
        simp [haux.2]

/-- Witness for C1: both branches instantiated, the first at `num_ctas = 1`
with cluster dimensions `(9,9,9)` present but ignored, the second at
`num_ctas = 2` in a fully working environment. -/
theorem path_selection_exact_witness :
    ((1 : Int) * 1 * 1 > 0) ∧
    (countSimple (_launch envOK st0 1 1 1 4 1 9 9 9 0 7 11 []).events = 1 ∧
      countExtended (_launch envOK st0 1 1 1 4 1 9 9 9 0 7 11 []).events = 0) ∧
    (countSimple (_launch envOK st0 1 1 1 4 2 1 1 1 0 7 11 []).events = 0 ∧
      countExtended (_launch envOK st0 1 1 1 4 2 1 1 1 0 7 11 []).events = 1) := by
  have h1 := (path_selection_exact envOK st0 1 1 1 4 1 9 9 9 0 7 11 [] (by decide)).1 rfl
  have h2 := (path_selection_exact envOK st0 1 1 1 4 2 1 1 1 0 7 11 [] (by decide)).2 (by decide)
  exact ⟨by decide, ⟨h1.1, h1.2.1⟩, ⟨h2.1, h2.2 (by decide)⟩⟩

/-- C8: the resolver is idempotent after success.  With a handle in the
cache, resolution returns that identical handle with no loader activity;
the cache, once set, is never changed by any later `_launch` in any
environment; and running two cluster dispatches in sequence from a fresh
state, the first caches the resolved handle and the second performs zero
loader operations and launches through the identical handle. -/
theorem resolver_idempotent (env : DriverEnv) (h : Nat)
    (hopen : env.dlopenOk = true) (hsym : env.exSymbol = some h) :
    (∀ (env2 : DriverEnv) (h0 : Nat), resolveExHandle env2 (some h0) = (some h0, none, [])) ∧
    (∀ (env2 : DriverEnv) (st : LState) (h0 : Nat)
        (gridX gridY gridZ num_warps num_ctas clusterDimX clusterDimY clusterDimZ shared_memory : Int)
        (stream function : Nat) (params : List Nat), st.cache = some h0 →
      (_launch env2 st gridX gridY gridZ num_warps num_ctas clusterDimX clusterDimY clusterDimZ
        shared_memory stream function params).state.cache = some h0) ∧
    (∀ (gridX gridY gridZ num_warps num_ctas clusterDimX clusterDimY clusterDimZ shared_memory : Int)
        (stream function : Nat) (params : List Nat),
      gridX * gridY * gridZ > 0 → num_ctas ≠ 1 →
      (_launch env st0 gridX gridY gridZ num_warps num_ctas clusterDimX clusterDimY clusterDimZ
        shared_memory stream function params).state.cache = some h ∧
      ∀ (st2 : LState), st2.cache = some h →
        ∀ (gx2 gy2 gz2 nw2 nc2 cx2 cy2 cz2 sm2 : Int) (s2 f2 : Nat) (p2 : List Nat),
          gx2 * gy2 * gz2 > 0 → nc2 ≠ 1 →
          countLoader (_launch env st2 gx2 gy2 gz2 nw2 nc2 cx2 cy2 cz2 sm2 s2 f2 p2).events = 0 ∧
          (_launch env st2 gx2 gy2 gz2 nw2 nc2 cx2 cy2 cz2 sm2 s2 f2 p2).events
            = [.cuLaunchKernelEx h
                { gridDimX := gx2 * cx2, gridDimY := gy2 * cy2, gridDimZ := gz2 * cz2
                  blockDimX := 32 * nw2, blockDimY := 1, blockDimZ := 1
                  sharedMemBytes := sm2, hStream := s2
                  attrs := [.clusterDimension cx2 cy2 cz2,
                            .clusterSchedulingPolicyPreference .spread] }
                f2 p2 none]) := by
  refine ⟨?_, ?_, ?_⟩
  · intro env2 h0
    simp [resolveExHandle]
  · intro env2 st h0 gridX gridY gridZ num_warps num_ctas cx cy cz sm s f p hc
    by_cases hg : gridX * gridY * gridZ > 0
    · by_cases hn : num_ctas = 1
      · simp [_launch, hg, hn, hc]
      · simp [_launch, hg, hn, hc, resolveExHandle]
    · simp [_launch, hg, hc]
  · intro gridX gridY gridZ num_warps num_ctas cx cy cz sm s f p hg hn
    refine ⟨?_, ?_⟩
    · simp [_launch, hg, hn, st0, resolveExHandle, getLaunchKernelExHandle, hopen, hsym]
    · intro st2 hc2 gx2 gy2 gz2 nw2 nc2 cx2 cy2 cz2 sm2 s2 f2 p2 hg2 hn2
      constructor
      · simp [_launch, hg2, hn2, hc2, resolveExHandle, countLoader]
      · simp [_launch, hg2, hn2, hc2, resolveExHandle]

/-- Witness for C8: resolving from the cache holding handle 5 is loader-free
and returns handle 5; a first cluster dispatch from the fresh state caches
handle 5; a second dispatch from that state performs zero loader operations. -/
theorem resolver_idempotent_witness :
    (envOK.dlopenOk = true ∧ envOK.exSymbol = some 5) ∧
    resolveExHandle envOK (some 5) = (some 5, none, []) ∧
    (_launch envOK st0 1 1 1 4 2 1 1 1 0 7 11 []).state.cache = some 5 ∧
    countLoader (_launch envOK { cache := some 5, pyerr := none } 1 1 1 4 2 1 1 1 0 7 11 []).events = 0 := by
  have H := resolver_idempotent envOK 5 rfl rfl
  have H3 := H.2.2 1 1 1 4 2 1 1 1 0 7 11 [] (by decide) (by decide)
  exact ⟨⟨rfl, rfl⟩, H.1 envOK 5, H3.1,
    (H3.2 { cache := some 5, pyerr := none } rfl 1 1 1 4 2 1 1 1 0 7 11 [] (by decide) (by decide)).1⟩

/-- C6 evidence: in an environment whose driver lacks `cuLaunchKernelEx`,
a cluster dispatch (`num_ctas = 2`) sets the symbol-not-found RuntimeError
but then calls the NULL handle: the outcome is a crash, no extended launch
is issued, and the error is never returned to the caller; a simple-path
dispatch (`num_ctas = 1`) in the same environment still succeeds. -/
theorem ex_symbol_absent_crash :
    (_launch envNoSym st0 1 1 1 4 2 1 1 1 0 7 11 []).outcome = .crashed ∧
    (_launch envNoSym st0 1 1 1 4 2 1 1 1 0 7 11 []).state.pyerr
      = some (.runtimeError "Failed to retrieve cuLaunchKernelEx from libcuda.so") ∧
    countExtended (_launch envNoSym st0 1 1 1 4 2 1 1 1 0 7 11 []).events = 0 ∧
    (launch envNoSym none
      { gridX := 1, gridY := 1, gridZ := 1, num_warps := 4, num_ctas := 2
        clusterDimX := 1, clusterDimY := 1, clusterDimZ := 1, shared_memory := 0
        stream := 7, function := 11, launch_enter_hook := .pyNone, launch_exit_hook := .pyNone
        args_obj := [] }).ret = .crashed ∧
    (launch envNoSym none
      { gridX := 1, gridY := 1, gridZ := 1, num_warps := 4, num_ctas := 1
        clusterDimX := 1, clusterDimY := 1, clusterDimZ := 1, shared_memory := 0
        stream := 7, function := 11, launch_enter_hook := .pyNone, launch_exit_hook := .pyNone
        args_obj := [] }).ret = .noneObj :=
  ⟨rfl, rfl, rfl, rfl, rfl⟩

/-- A representable host value converts to exactly its 64-bit widened
value, with no exception. -/
theorem pyLong_conv_of_representable (v : PyVal) (hv : isRepresentableU64 v = true) :
    pyLongAsUnsignedLongLong v = (u64Value v, none) := by
  cases v with
  | int n =>
    simp only [isRepresentableU64, Bool.and_eq_true, decide_eq_true_eq] at hv
    simp only [pyLongAsUnsignedLongLong, u64Value]
    rw [if_pos hv]
  | nonInt => simp [isRepresentableU64] at hv

/-- C5: marshalling is order-preserving and lossless.  For an input list
of representable unsigned 64-bit values, word-buffer slot `i` holds
exactly the widened value of input element `i`, pointer-view entry `i`
points at slot `i`, and dereferencing it reads back that value; the empty
input yields two zero-length arrays and the launch still proceeds,
issuing the driver call with an empty argument list. -/
theorem marshal_order_preserving (values : List PyVal)
    (hrep : values.all isRepresentableU64 = true) :
    ((marshalVals values).length = values.length ∧
      (marshalPtrs values).length = values.length ∧
      ∀ (i : Nat) (v : PyVal), values[i]? = some v →
        (marshalVals values)[i]? = some (u64Value v) ∧
        (marshalPtrs values)[i]? = some i ∧
        derefPtr (marshalVals values) i = some (u64Value v)) ∧
    (marshalVals [] = [] ∧ marshalPtrs [] = [] ∧
      ∀ (env : DriverEnv) (cache : Option Nat) (a : PyLaunchArgs),
        a.args_obj = [] → a.launch_enter_hook = .pyNone → a.launch_exit_hook = .pyNone →
        a.num_ctas = 1 → a.gridX * a.gridY * a.gridZ > 0 → env.launchKernelResult = .success →
        (launch env cache a).ret = .noneObj ∧
        (launch env cache a).events
          = [.cuLaunchKernel a.function a.gridX a.gridY a.gridZ (32 * a.num_warps) 1 1
              a.shared_memory a.stream [] none]) := by
  constructor
  · refine ⟨by simp [marshalVals], by simp [marshalPtrs], ?_⟩
    intro i v hv
    have hmem : v ∈ values := List.getElem?_mem hv
    have hvrep : isRepresentableU64 v = true := (List.all_eq_true.mp hrep) v hmem
    have hi : i < values.length := (List.getElem?_eq_some.mp hv).1
    have hval : (marshalVals values)[i]? = some (u64Value v) := by
      rw [marshalVals, List.getElem?_map, hv]
      simp [pyLong_conv_of_representable v hvrep]
    refine ⟨hval, ?_, hval⟩
    simp [marshalPtrs, List.getElem?_range, hi]
  · refine ⟨rfl, rfl, ?_⟩
    intro env cache a hargs hpre hpost hctas hgrid henv
    have hmv : marshalVals a.args_obj = [] := by rw [hargs]; rfl
    have hme : marshalErr a.args_obj none = none := by rw [hargs]; rfl
    constructor
    · simp [launch, hpre, hpost, _launch, hgrid, hctas, hmv, hme, gpuAssert, henv]
    · simp [launch, hpre, hpost, _launch, hgrid, hctas, hmv, hme, gpuAssert, henv]

/-- Witness for C5: scenario D, argument list `[5, 1000000000000]`, slot 1;
plus the empty-argument scenario A launch going through. -/
theorem marshal_order_preserving_witness :
    ([PyVal.int 5, PyVal.int 1000000000000].all isRepresentableU64 = true) ∧
    (marshalVals [PyVal.int 5, PyVal.int 1000000000000])[1]? = some 1000000000000 ∧
    (marshalPtrs [PyVal.int 5, PyVal.int 1000000000000])[1]? = some 1 ∧
    derefPtr (marshalVals [PyVal.int 5, PyVal.int 1000000000000]) 1 = some 1000000000000 ∧
    (launch envOK none
      { gridX := 1, gridY := 1, gridZ := 1, num_warps := 4, num_ctas := 1
        clusterDimX := 1, clusterDimY := 1, clusterDimZ := 1, shared_memory := 0
        stream := 7, function := 11, launch_enter_hook := .pyNone, launch_exit_hook := .pyNone
        args_obj := [] }).ret = .noneObj := by
  have H := marshal_order_preserving [PyVal.int 5, PyVal.int 1000000000000] (by decide)
  have h1 := (H.1).2.2 1 (PyVal.int 1000000000000) rfl
  have h2 := (H.2).2.2 envOK none
    { gridX := 1, gridY := 1, gridZ := 1, num_warps := 4, num_ctas := 1
      clusterDimX := 1, clusterDimY := 1, clusterDimZ := 1, shared_memory := 0
      stream := 7, function := 11, launch_enter_hook := .pyNone, launch_exit_hook := .pyNone
      args_obj := [] } rfl rfl rfl rfl (by decide) rfl
  exact ⟨by decide, h1.1, h1.2.1, h1.2.2, h2.1⟩

/-- C7 evidence: with argument list `[5, 2^64]` (second element not
representable as unsigned 64-bit), the conversion failure sets an
OverflowError but the marshal loop never checks it: the driver launch is
still issued, carrying the error-sentinel word `2^64 - 1` in slot 1, and
the exception is surfaced only after the device call, as a NULL return. -/
theorem conversion_error_launches_anyway :
    isRepresentableU64 (PyVal.int (2 ^ 64)) = false ∧
    (launch envOK none
      { gridX := 1, gridY := 1, gridZ := 1, num_warps := 4, num_ctas := 1
        clusterDimX := 1, clusterDimY := 1, clusterDimZ := 1, shared_memory := 0
        stream := 7, function := 11, launch_enter_hook := .pyNone, launch_exit_hook := .pyNone
        args_obj := [.int 5, .int (2 ^ 64)] }).ret = .nullErr .overflowError ∧
    (launch envOK none
      { gridX := 1, gridY := 1, gridZ := 1, num_warps := 4, num_ctas := 1
        clusterDimX := 1, clusterDimY := 1, clusterDimZ := 1, shared_memory := 0
        stream := 7, function := 11, launch_enter_hook := .pyNone, launch_exit_hook := .pyNone
        args_obj := [.int 5, .int (2 ^ 64)] }).events
      = [.cuLaunchKernel 11 1 1 1 128 1 1 0 7 [5, 2 ^ 64 - 1] none] := by
  refine ⟨by decide, ?_, ?_⟩ <;> rfl

/-- C9: hook protocol.  A raising enter hook aborts the dispatch at once:
NULL return, hook-error exception, and a trace holding only the hook call
(so no device call was made).  A succeeding enter hook is invoked before
everything else, so the trace starts with the hook call.  When the
dispatch reaches the exit hook (enter hook did not raise, the foreign call
returned with no pending exception), the exit hook call is the last event
of the trace, hence after the device call: a succeeding exit hook yields
the success return, a raising one surfaces the hook error as-is. -/
theorem hooks_protocol (env : DriverEnv) (cache : Option Nat) (a : PyLaunchArgs) :
    (a.launch_enter_hook = .raises →
      launch env cache a
        = { ret := .nullErr .hookError, cache := cache, events := [.enterHookCall] }) ∧
    (a.launch_enter_hook = .succeeds →
      ∃ t, (launch env cache a).events = .enterHookCall :: t) ∧
    (a.launch_enter_hook ≠ .raises →
      (_launch env { cache := cache, pyerr := marshalErr a.args_obj none }
        a.gridX a.gridY a.gridZ a.num_warps a.num_ctas a.clusterDimX a.clusterDimY a.clusterDimZ
        a.shared_memory a.stream a.function (marshalVals a.args_obj)).outcome = .returned →
      (_launch env { cache := cache, pyerr := marshalErr a.args_obj none }
        a.gridX a.gridY a.gridZ a.num_warps a.num_ctas a.clusterDimX a.clusterDimY a.clusterDimZ
        a.shared_memory a.stream a.function (marshalVals a.args_obj)).state.pyerr = none →
      ((a.launch_exit_hook = .succeeds →
          (launch env cache a).ret = .noneObj ∧
          ∃ t, (launch env cache a).events = t ++ [.exitHookCall]) ∧
       (a.launch_exit_hook = .raises →
          (launch env cache a).ret = .nullErr .hookError ∧
          ∃ t, (launch env cache a).events = t ++ [.exitHookCall]))) := by
  rcases hro : (_launch env { cache := cache, pyerr := marshalErr a.args_obj none }
    a.gridX a.gridY a.gridZ a.num_warps a.num_ctas a.clusterDimX a.clusterDimY a.clusterDimZ
    a.shared_memory a.stream a.function (marshalVals a.args_obj)) with ⟨oc, stf, evs⟩
  refine ⟨?_, ?_, ?_⟩
  · intro h1
    simp [launch, h1]
  · intro h1
    have hne : a.launch_enter_hook ≠ .raises := by rw [h1]; intro hc; cases hc
    have hnn : ¬ a.launch_enter_hook = .pyNone := by rw [h1]; intro hc; cases hc
    cases oc with
    | crashed =>
      refine ⟨evs, ?_⟩
      simp [launch, hne, hnn, hro]
    | returned =>
      cases hpe : stf.pyerr with
      | some e =>
        refine ⟨evs, ?_⟩
        simp [launch, hne, hnn, hro, hpe]
      | none =>
        cases hx : a.launch_exit_hook with
        | pyNone =>
          refine ⟨evs, ?_⟩
          simp [launch, hne, hnn, hro, hpe, hx]
        | succeeds =>
          refine ⟨evs ++ [.exitHookCall], ?_⟩
          have hxr : ¬ a.launch_exit_hook = Hook.raises := by rw [hx]; intro hc; cases hc
          have hxn : ¬ a.launch_exit_hook = Hook.pyNone := by rw [hx]; intro hc; cases hc
          simp [launch, hne, hnn, hro, hpe, hxr, hxn]
        | raises =>
          refine ⟨evs ++ [.exitHookCall], ?_⟩
          simp [launch, hne, hnn, hro, hpe, hx]
  · intro hne hoc hpe
    simp only at hoc hpe
    subst hoc
    constructor
    · intro hx
      have hxr : ¬ a.launch_exit_hook = Hook.raises := by rw [hx]; intro hc; cases hc
      have hxn : ¬ a.launch_exit_hook = Hook.pyNone := by rw [hx]; intro hc; cases hc
      constructor
      · simp [launch, hne, hro, hpe, hxr, hxn]
      · refine ⟨(if a.launch_enter_hook = .pyNone then ([] : List Event) else [.enterHookCall]) ++ evs, ?_⟩
        simp [launch, hne, hro, hpe, hxr, hxn]
    · intro hx
      constructor
      · simp [launch, hne, hro, hpe, hx]
      · refine ⟨(if a.launch_enter_hook = .pyNone then ([] : List Event) else [.enterHookCall]) ++ evs, ?_⟩
        simp [launch, hne, hro, hpe, hx]

/-- Witness for C9: a raising enter hook aborts with no device call; with
both hooks succeeding the trace is hook call, device call, hook call; a
raising exit hook surfaces the hook error after the device call. -/
theorem hooks_protocol_witness :
    (launch envOK none
      { gridX := 1, gridY := 1, gridZ := 1, num_warps := 4, num_ctas := 1
        clusterDimX := 1, clusterDimY := 1, clusterDimZ := 1, shared_memory := 0
        stream := 7, function := 11, launch_enter_hook := .raises, launch_exit_hook := .pyNone
        args_obj := [] }
      = { ret := .nullErr .hookError, cache := none, events := [.enterHookCall] }) ∧
    (∃ t, (launch envOK none
      { gridX := 1, gridY := 1, gridZ := 1, num_warps := 4, num_ctas := 1
        clusterDimX := 1, clusterDimY := 1, clusterDimZ := 1, shared_memory := 0
        stream := 7, function := 11, launch_enter_hook := .succeeds, launch_exit_hook := .succeeds
        args_obj := [] }).events = .enterHookCall :: t) ∧
    ((launch envOK none
      { gridX := 1, gridY := 1, gridZ := 1, num_warps := 4, num_ctas := 1
        clusterDimX := 1, clusterDimY := 1, clusterDimZ := 1, shared_memory := 0
        stream := 7, function := 11, launch_enter_hook := .succeeds, launch_exit_hook := .raises
        args_obj := [] }).ret = .nullErr .hookError ∧
      ∃ t, (launch envOK none
      { gridX := 1, gridY := 1, gridZ := 1, num_warps := 4, num_ctas := 1
        clusterDimX := 1, clusterDimY := 1, clusterDimZ := 1, shared_memory := 0
        stream := 7, function := 11, launch_enter_hook := .succeeds, launch_exit_hook := .raises
        args_obj := [] }).events = t ++ [.exitHookCall]) := by
  refine ⟨?_, ?_, ?_⟩
  · exact (hooks_protocol envOK none
      { gridX := 1, gridY := 1, gridZ := 1, num_warps := 4, num_ctas := 1
        clusterDimX := 1, clusterDimY := 1, clusterDimZ := 1, shared_memory := 0
        stream := 7, function := 11, launch_enter_hook := .raises, launch_exit_hook := .pyNone
        args_obj := [] }).1 rfl
  · exact (hooks_protocol envOK none
      { gridX := 1, gridY := 1, gridZ := 1, num_warps := 4, num_ctas := 1
        clusterDimX := 1, clusterDimY := 1, clusterDimZ := 1, shared_memory := 0
        stream := 7, function := 11, launch_enter_hook := .succeeds, launch_exit_hook := .succeeds
        args_obj := [] }).2.1 rfl
  · exact ((hooks_protocol envOK none
      { gridX := 1, gridY := 1, gridZ := 1, num_warps := 4, num_ctas := 1
        clusterDimX := 1, clusterDimY := 1, clusterDimZ := 1, shared_memory := 0
        stream := 7, function := 11, launch_enter_hook := .succeeds, launch_exit_hook := .raises
        args_obj := [] }).2.2 (by intro hc; cases hc) rfl rfl).2 rfl

end TritonLauncher
